import Mathlib

/-!
Verification development for the Studio OM V2 weather-adjusted performance
analysis engine (`src/analysis.py`).

The numeric columns of the pandas DataFrames are modelled by `FVal`, an
IEEE-754-style value: an exact rational for the finite case plus `nan`,
`pinf` (+infinity) and `ninf` (-infinity).  Rounding error is idealized away
(finite arithmetic is exact rational arithmetic); the special-value
propagation rules (division by zero, nan propagation, Python `max` with nan,
pandas `replace`/`fillna`/skip-nan sums) follow the library semantics the
source relies on.
-/

/-- IEEE-style float value: exact rational, or a special value. -/
inductive FVal where
  | fin (q : ℚ)
  | pinf
  | ninf
  | nan
deriving DecidableEq, Repr

namespace FVal

/-- Addition with IEEE special-value rules. -/
def fadd : FVal → FVal → FVal
  | .fin a, .fin b => .fin (a + b)
  | .fin _, .pinf => .pinf
  | .fin _, .ninf => .ninf
  | .pinf, .fin _ => .pinf
  | .ninf, .fin _ => .ninf
  | .pinf, .pinf => .pinf
  | .ninf, .ninf => .ninf
  | _, _ => .nan

/-- Negation with IEEE special-value rules. -/
def fneg : FVal → FVal
  | .fin a => .fin (-a)
  | .pinf => .ninf
  | .ninf => .pinf
  | .nan => .nan

/-- Subtraction with IEEE special-value rules. -/
def fsub (a b : FVal) : FVal := fadd a (fneg b)

/-- Multiplication with IEEE special-value rules (inf times zero is nan). -/
def fmul : FVal → FVal → FVal
  | .fin a, .fin b => .fin (a * b)
  | .fin a, .pinf => if 0 < a then .pinf else if a < 0 then .ninf else .nan
  | .fin a, .ninf => if 0 < a then .ninf else if a < 0 then .pinf else .nan
  | .pinf, .fin b => if 0 < b then .pinf else if b < 0 then .ninf else .nan
  | .ninf, .fin b => if 0 < b then .ninf else if b < 0 then .pinf else .nan
  | .pinf, .pinf => .pinf
  | .pinf, .ninf => .ninf
  | .ninf, .pinf => .ninf
  | .ninf, .ninf => .pinf
  | _, _ => .nan

/-- Division with numpy semantics: finite/0 is signed infinity, 0/0 is nan. -/
def fdiv : FVal → FVal → FVal
  | .fin a, .fin b =>
      if b = 0 then (if 0 < a then .pinf else if a < 0 then .ninf else .nan)
      else .fin (a / b)
  | .fin _, .pinf => .fin 0
  | .fin _, .ninf => .fin 0
  | .pinf, .fin b => if b < 0 then .ninf else .pinf
  | .ninf, .fin b => if b < 0 then .pinf else .ninf
  | _, _ => .nan

/-- Strict less-than; any comparison involving nan is false. -/
def flt : FVal → FVal → Bool
  | .fin a, .fin b => a < b
  | .fin _, .pinf => true
  | .ninf, .fin _ => true
  | .ninf, .pinf => true
  | _, _ => false

/-- Less-or-equal; any comparison involving nan is false. -/
def fle : FVal → FVal → Bool
  | .fin a, .fin b => a ≤ b
  | .fin _, .pinf => true
  | .ninf, .fin _ => true
  | .ninf, .pinf => true
  | .ninf, .ninf => true
  | .pinf, .pinf => true
  | _, _ => false

/-- Python `max(x, c)`: returns `c` exactly when `c > x` (so `max(nan, c)` is nan). -/
def pymax (x c : FVal) : FVal := if flt x c then c else x

/-- Elementwise model of pandas `.replace([np.inf, -np.inf], np.nan)`. -/
def replaceInf : FVal → FVal
  | .pinf => .nan
  | .ninf => .nan
  | x => x

/-- Elementwise model of pandas `.fillna(0)`. -/
def fillna0 : FVal → FVal
  | .nan => .fin 0
  | x => x

/-- The value is an ordinary (finite) number. -/
def isFinite : FVal → Bool
  | .fin _ => true
  | _ => false

/-- The rational carried by a finite value (0 for the special values). -/
def ratOf : FVal → ℚ
  | .fin q => q
  | _ => 0

/-- pandas `Series.sum()`: left fold of IEEE addition skipping nan entries. -/
def fsumP (l : List FVal) : FVal :=
  l.foldl (fun acc x => if x = .nan then acc else fadd acc x) (.fin 0)

/-- pandas `Series.mean()`: skip-nan sum over the count of non-nan entries. -/
def fmeanP (l : List FVal) : FVal :=
  let n := (l.filter (fun x => x ≠ .nan)).length
  if n = 0 then .nan else fdiv (fsumP l) (.fin n)

end FVal

open FVal

/-- A row of the actual-production DataFrame handed to the analysis
(columns produced by `load_actual_data`).  `Date` is the month index
`12 * year + (month - 1)`; `Year` and `Month` are the stored columns. -/
structure ActualRow where
  Date : Int
  Year : Int
  Month : Int
  actual_yield_kwh : FVal
  actual_pr_percent : FVal
  actual_ghi_kwh_m2 : FVal
  ambient_temp_c : FVal
deriving DecidableEq, Repr

/-- A row of the PVsyst baseline DataFrame (columns produced by
`load_pvsyst_baseline`), keyed by calendar month-of-year. -/
structure PvsystRow where
  Month : Int
  pvsyst_yield_kwh : FVal
  pvsyst_pr_percent : FVal
  pvsyst_ghi_kwh_m2 : FVal
deriving DecidableEq, Repr

/-- The configuration dictionary `_system_info` with the fields the analysis
reads (defaults are applied by the caller of the model). -/
structure SystemInfo where
  degradation_rate : ℚ
  commissioning_year : Int
  temp_coeff : ℚ
  irr_alert_threshold : ℚ
  forecast_period : Nat
  energy_guarantee : ℚ
deriving DecidableEq, Repr

/-- A row of `pd.merge(_actual_df, _pvsyst_df, on='Month', how='left')`. -/
structure JoinedRow where
  Date : Int
  Year : Int
  Month : Int
  actual_yield_kwh : FVal
  actual_pr_percent : FVal
  actual_ghi_kwh_m2 : FVal
  ambient_temp_c : FVal
  pvsyst_yield_kwh : FVal
  pvsyst_pr_percent : FVal
  pvsyst_ghi_kwh_m2 : FVal
deriving DecidableEq, Repr

/-- Join one actual row with one matching baseline row. -/
def joinWith (a : ActualRow) (p : PvsystRow) : JoinedRow :=
  { Date := a.Date, Year := a.Year, Month := a.Month,
    actual_yield_kwh := a.actual_yield_kwh,
    actual_pr_percent := a.actual_pr_percent,
    actual_ghi_kwh_m2 := a.actual_ghi_kwh_m2,
    ambient_temp_c := a.ambient_temp_c,
    pvsyst_yield_kwh := p.pvsyst_yield_kwh,
    pvsyst_pr_percent := p.pvsyst_pr_percent,
    pvsyst_ghi_kwh_m2 := p.pvsyst_ghi_kwh_m2 }

/-- Left-merge result for an actual row with no baseline match: the baseline
columns are filled with nan, as pandas does for `how='left'`. -/
def joinMissing (a : ActualRow) : JoinedRow :=
  { Date := a.Date, Year := a.Year, Month := a.Month,
    actual_yield_kwh := a.actual_yield_kwh,
    actual_pr_percent := a.actual_pr_percent,
    actual_ghi_kwh_m2 := a.actual_ghi_kwh_m2,
    ambient_temp_c := a.ambient_temp_c,
    pvsyst_yield_kwh := .nan,
    pvsyst_pr_percent := .nan,
    pvsyst_ghi_kwh_m2 := .nan }

/-- Model of `pd.merge(_actual_df, _pvsyst_df, on='Month', how='left')`:
every actual row is kept (in order); each baseline row with the same
month-of-year yields one joined row, and an actual row with no baseline
match yields a single row whose baseline columns are nan. -/
def mergeLeft (actual : List ActualRow) (pvsyst : List PvsystRow) : List JoinedRow :=
  actual.flatMap (fun a =>
    match pvsyst.filter (fun p => p.Month == a.Month) with
    | [] => [joinMissing a]
    | ps => ps.map (joinWith a))

/-- A row of the enriched analysis DataFrame (the columns `final_cols` of
`perform_phase2_analysis`). -/
structure EnrichedRow where
  Date : Int
  Year : Int
  Month : Int
  op_year : Int
  actual_yield_kwh : FVal
  expected_yield_kwh : FVal
  ideal_yield_kwh : FVal
  temp_loss_kwh : FVal
  other_losses_kwh : FVal
  yield_variance_kwh : FVal
  yield_variance_pct : FVal
  actual_ghi_kwh_m2 : FVal
  pvsyst_ghi_kwh_m2 : FVal
  irr_index_pct : FVal
  irr_alert : String
  pi_pct : FVal
  actual_pr_percent : FVal
  pvsyst_pr_percent : FVal
  ambient_temp_c : FVal
deriving DecidableEq, Repr

/-- The per-row derivations of `perform_phase2_analysis` (source lines 25-49):
operating year, irradiance index and alert, ideal yield, temperature loss,
floored expected yield, performance index, losses and variance. -/
def enrichRow (cfg : SystemInfo) (j : JoinedRow) : EnrichedRow :=
  let tc : ℚ := cfg.temp_coeff / 100
  let thr : ℚ := cfg.irr_alert_threshold
  let ratio := fdiv j.actual_ghi_kwh_m2 j.pvsyst_ghi_kwh_m2
  let irr_index := fillna0 (fmul (replaceInf ratio) (.fin 100))
  let irr_alert :=
    if flt (.fin (100 + thr)) irr_index || flt irr_index (.fin (100 - thr)) then
      "⚠️ Check Sensor"
    else "✅ OK"
  let ideal := fmul j.pvsyst_yield_kwh (fillna0 (replaceInf ratio))
  let temp_loss := fmul (fmul ideal (.fin tc)) (fsub j.ambient_temp_c (.fin 25))
  let expected := pymax (fadd ideal temp_loss) (.fin (1/100))
  let pi := fmul (fdiv j.actual_yield_kwh expected) (.fin 100)
  let other := fsub expected j.actual_yield_kwh
  let variance := fsub j.actual_yield_kwh expected
  let var_pct := fillna0 (fmul (replaceInf (fdiv variance expected)) (.fin 100))
  { Date := j.Date, Year := j.Year, Month := j.Month,
    op_year := max (j.Year - cfg.commissioning_year) 0,
    actual_yield_kwh := j.actual_yield_kwh,
    expected_yield_kwh := expected,
    ideal_yield_kwh := ideal,
    temp_loss_kwh := temp_loss,
    other_losses_kwh := other,
    yield_variance_kwh := variance,
    yield_variance_pct := var_pct,
    actual_ghi_kwh_m2 := j.actual_ghi_kwh_m2,
    pvsyst_ghi_kwh_m2 := j.pvsyst_ghi_kwh_m2,
    irr_index_pct := irr_index,
    irr_alert := irr_alert,
    pi_pct := pi,
    actual_pr_percent := j.actual_pr_percent,
    pvsyst_pr_percent := j.pvsyst_pr_percent,
    ambient_temp_c := j.ambient_temp_c }

/-- The `insights` dictionary built by `perform_phase2_analysis`
(source lines 51-64). -/
structure Insights where
  total_actual_yield_mwh : FVal
  total_expected_yield_mwh : FVal
  total_ideal_yield_mwh : FVal
  total_temp_loss_mwh : FVal
  total_other_losses_mwh : FVal
  overall_yield_variance_mwh : FVal
  overall_yield_variance_pct : FVal
  average_pi_pct : FVal
  average_pr_pct : FVal
  sensor_alerts_count : Nat
deriving DecidableEq, Repr

/-- Computes the insights dictionary from the enriched rows, following
source lines 51-64 (pandas sums skip nan; the two guarded percentages fall
back to 0 when the total expected yield is not positive). -/
def mkInsights (rows : List EnrichedRow) : Insights :=
  let ta := fdiv (fsumP (rows.map (fun r => r.actual_yield_kwh))) (.fin 1000)
  let te := fdiv (fsumP (rows.map (fun r => r.expected_yield_kwh))) (.fin 1000)
  let sa := fsumP (rows.map (fun r => r.actual_yield_kwh))
  let se := fsumP (rows.map (fun r => r.expected_yield_kwh))
  { total_actual_yield_mwh := ta,
    total_expected_yield_mwh := te,
    total_ideal_yield_mwh := fdiv (fsumP (rows.map (fun r => r.ideal_yield_kwh))) (.fin 1000),
    total_temp_loss_mwh := fdiv (fsumP (rows.map (fun r => r.temp_loss_kwh))) (.fin 1000),
    total_other_losses_mwh := fdiv (fsumP (rows.map (fun r => r.other_losses_kwh))) (.fin 1000),
    overall_yield_variance_mwh := fsub ta te,
    overall_yield_variance_pct :=
      if flt (.fin 0) te then fmul (fdiv (fsub ta te) te) (.fin 100) else .fin 0,
    average_pi_pct :=
      if flt (.fin 0) se then fmul (fdiv sa se) (.fin 100) else .fin 0,
    average_pr_pct := fmeanP (rows.map (fun r => r.actual_pr_percent)),
    sensor_alerts_count := (rows.filter (fun r => r.irr_alert != "✅ OK")).length }

/-- Sort of the enriched table by the `Date` column (source line 74). -/
def sortByDate (rows : List EnrichedRow) : List EnrichedRow :=
  rows.insertionSort (fun a b => a.Date ≤ b.Date)

/-- Model of `perform_phase2_analysis(_actual_df, _pvsyst_df, _system_info)`:
left-merge on month-of-year, per-row enrichment, insights computed on the
merged table, and the enriched table returned sorted by date. -/
def perform_phase2_analysis (actual : List ActualRow) (pvsyst : List PvsystRow)
    (cfg : SystemInfo) : List EnrichedRow × Insights :=
  let enriched := (mergeLeft actual pvsyst).map (enrichRow cfg)
  (sortByDate enriched, mkInsights enriched)

/-- Calendar year encoded in a month index (`Date = 12 * year + (month - 1)`). -/
def dateYear (d : Int) : Int := d / 12

/-- Calendar month-of-year (1-12) encoded in a month index. -/
def dateMonth (d : Int) : Int := d % 12 + 1

/-- English month name, for `strftime('%B %Y')`. -/
def monthName : Int → String
  | 1 => "January"
  | 2 => "February"
  | 3 => "March"
  | 4 => "April"
  | 5 => "May"
  | 6 => "June"
  | 7 => "July"
  | 8 => "August"
  | 9 => "September"
  | 10 => "October"
  | 11 => "November"
  | 12 => "December"
  | _ => ""

/-- The label `Date.strftime` with format B-space-Y on a month index. -/
def formatMonthYear (d : Int) : String :=
  monthName (dateMonth d) ++ " " ++ toString (dateYear d)

/-- The dictionary returned by `get_loss_breakdown_data`. -/
structure LossBreakdown where
  ideal : FVal
  temp_loss : FVal
  other_loss : FVal
  actual : FVal
  period_str : String
deriving DecidableEq, Repr

/-- Model of `get_loss_breakdown_data(analysis_df, insights, period)`
(source lines 79-102): the empty-table guard comes first, then the
`overall` branch (requiring insights), the `latest_month` branch (last row
of the table), and a `ValueError` for any other period keyword. -/
def get_loss_breakdown_data (rows : List EnrichedRow) (insights : Option Insights)
    (period : String) : Except String LossBreakdown :=
  if rows = [] then
    .ok { ideal := .fin 0, temp_loss := .fin 0, other_loss := .fin 0,
          actual := .fin 0, period_str := "no data" }
  else if period = "overall" then
    match insights with
    | none => .error "Insights dictionary must be provided for \x27overall\x27 period."
    | some ins =>
        .ok { ideal := ins.total_ideal_yield_mwh,
              temp_loss := ins.total_temp_loss_mwh,
              other_loss := ins.total_other_losses_mwh,
              actual := ins.total_actual_yield_mwh,
              period_str := "the entire analysis period" }
  else if period = "latest_month" then
    match rows.getLast? with
    | some r =>
        .ok { ideal := fdiv r.ideal_yield_kwh (.fin 1000),
              temp_loss := fdiv r.temp_loss_kwh (.fin 1000),
              other_loss := fdiv r.other_losses_kwh (.fin 1000),
              actual := fdiv r.actual_yield_kwh (.fin 1000),
              period_str := formatMonthYear r.Date }
    | none => .error "empty table"
  else .error "Invalid period. Must be \x27overall\x27 or \x27latest_month\x27."

/-- The calendar year `y` has exactly 12 distinct observed months in the
table (the `groupby('Year')['Month'].nunique() == 12` test). -/
def isFullYear (rows : List EnrichedRow) (y : Int) : Bool :=
  (((rows.filter (fun s => s.Year == y)).map (fun s => s.Month)).dedup).length == 12

/-- Model of `_get_full_years_df`: keep exactly the rows whose calendar year
has 12 distinct observed months in the table. -/
def get_full_years_df (rows : List EnrichedRow) : List EnrichedRow :=
  rows.filter (fun r => isFullYear rows r.Year)

/-- Largest element of a list of integers (0 for the empty list); models
pandas `.max()` on the nonempty columns it is applied to. -/
def listMaxInt : List Int → Int
  | [] => 0
  | x :: xs => xs.foldl max x

/-- pandas `groupby(key).sum()` on (key, value) pairs: one entry per distinct
key, keys sorted ascending, each with the skip-nan sum of its values. -/
def groupSum (l : List (Int × FVal)) : List (Int × FVal) :=
  ((l.map (fun x => x.1)).dedup.insertionSort (fun a b => a ≤ b)).map
    (fun y => (y, fsumP ((l.filter (fun x => x.1 == y)).map (fun x => x.2))))

/-- Prophet performance-index clip (source line 143): `clip(lower=50, upper=110)`. -/
def clipPI (q : ℚ) : ℚ := if q < 50 then 50 else if 110 < q then 110 else q

/-- A row of the long-term forecast table. -/
structure ForecastRow where
  Year : Int
  forecasted_yield_mwh : FVal
  degraded_guarantee_mwh : ℚ
  typ : String
deriving DecidableEq, Repr

/-- Model of `calculate_long_term_forecast(analysis_df, pvsyst_df, system_info)`
(source lines 129-164).  The fitted Prophet model is abstracted as the
parameter `predictPI`, giving the predicted performance index `yhat` at each
month index; everything around it — the full-year gate, the future date
range (history plus `forecast_period * 12` following months), the clip to
[50, 110], the month-of-year merge with the baseline yields, the yearly
grouping, the override of forecasted years by full-year actuals, the
degraded guarantee and the Historical/Forecast tag — follows the source. -/
def calculate_long_term_forecast (predictPI : Int → ℚ) (rows : List EnrichedRow)
    (pvsyst : List PvsystRow) (cfg : SystemInfo) : List ForecastRow :=
  if (get_full_years_df rows).isEmpty || pvsyst.isEmpty ||
      (get_full_years_df rows).length < 12 then []
  else
    ((groupSum ((((get_full_years_df rows).map (fun r => r.Date)) ++
        (List.range (cfg.forecast_period * 12)).map
          (fun i => listMaxInt ((get_full_years_df rows).map (fun r => r.Date)) + 1 +
            (i : Int))).flatMap
      (fun d =>
        match pvsyst.filter (fun p => p.Month == dateMonth d) with
        | [] => [(dateYear d, fmul .nan (.fin (clipPI (predictPI d) / 100)))]
        | ps => ps.map (fun p =>
            (dateYear d, fmul p.pvsyst_yield_kwh (.fin (clipPI (predictPI d) / 100))))))).map
      (fun x => (x.1, fdiv x.2 (.fin 1000)))).map
      (fun x =>
        { Year := x.1,
          forecasted_yield_mwh :=
            match ((groupSum ((get_full_years_df rows).map
                (fun r => (r.Year, r.actual_yield_kwh)))).map
                (fun x => (x.1, fdiv x.2 (.fin 1000)))).find? (fun a => a.1 == x.1) with
            | some a => if a.2 == FVal.nan then x.2 else a.2
            | none => x.2,
          degraded_guarantee_mwh :=
            cfg.energy_guarantee *
              (1 - cfg.degradation_rate / 100) ^ (x.1 - cfg.commissioning_year),
          typ := if x.1 ≤ listMaxInt ((get_full_years_df rows).map (fun r => r.Year)) then
              "Historical"
            else "Forecast" })

/-- The anomaly-detector feature matrix (source lines 183-184): per row the
columns `pi_%`, `other_losses_kwh`, `irr_index_%`, with nan filled by 0. -/
def anomalyFeatures (rows : List EnrichedRow) : List (FVal × FVal × FVal) :=
  rows.map (fun r => (fillna0 r.pi_pct, fillna0 r.other_losses_kwh, fillna0 r.irr_index_pct))

/-- Model of `detect_anomalies_with_ml(analysis_df)` (source lines 179-189).
The fitted IsolationForest is abstracted as the parameter `fit`, mapping
the feature matrix to the per-row predictions (sklearn returns 1 for
normal, -1 for anomalous).  With fewer than 3 rows the detector is not
fitted and every row is flagged 1; otherwise the predictions are attached
as the `is_anomaly` column. -/
def detect_anomalies_with_ml (fit : List (FVal × FVal × FVal) → List Int)
    (rows : List EnrichedRow) : List (EnrichedRow × Int) :=
  if rows.isEmpty || rows.length < 3 then rows.map (fun r => (r, 1))
  else rows.zip (fit (anomalyFeatures rows))

/-- Python string less-or-equal: lexicographic comparison of code points. -/
def charListLe : List Char → List Char → Bool
  | [], _ => true
  | _ :: _, [] => false
  | a :: as, b :: bs =>
      if a.toNat < b.toNat then true
      else if b.toNat < a.toNat then false
      else charListLe as bs

/-- String comparison used by Python `sorted` on the recommendation lines. -/
def strLe (a b : String) : Bool := charListLe a.data b.data

/-- Python `sorted(list(set(l)))`: the ascending list of the distinct
elements of `l`. -/
def sortedDedup (l : List String) : List String :=
  l.dedup.insertionSort (fun a b => strLe a b)

/-- Fixed-point rounding: round half to even, as Python string formatting does. -/
def roundHalfEven (x : ℚ) : ℤ :=
  let f := ⌊x⌋
  let r := x - f
  if r < 1/2 then f
  else if 1/2 < r then f + 1
  else if f % 2 = 0 then f else f + 1

/-- Python `format(q, '.<prec>f')` on the idealized rational. -/
def fmtFixed (prec : Nat) (x : ℚ) : String :=
  let n := roundHalfEven (x * (10 ^ prec : ℚ))
  let sgn := if n < 0 then "-" else ""
  let m := n.natAbs
  let ip := m / 10 ^ prec
  let fp := m % 10 ^ prec
  if prec = 0 then sgn ++ toString ip
  else
    let fpStr := toString fp
    let pad := String.mk (List.replicate (prec - fpStr.length) '0')
    sgn ++ toString ip ++ "." ++ pad ++ fpStr

/-- Python float formatting lifted to `FVal` (special values print as
`nan`, `inf`, `-inf`). -/
def fmtF (prec : Nat) : FVal → String
  | .fin q => fmtFixed prec q
  | .pinf => "inf"
  | .ninf => "-inf"
  | .nan => "nan"

/-- The dictionary returned by `calculate_short_term_forecast` when at least
6 monthly records are available. -/
structure STForecast where
  date : String
  pi : FVal
  pi_lower : FVal
  pi_upper : FVal
deriving DecidableEq, Repr

/-- A typed report block: `report_lines` entries `('h3', text)`, `('h4', text)`,
`('body', text)`, `('bullet', text)`. -/
inductive ReportBlock where
  | h3 (text : String)
  | h4 (text : String)
  | body (text : String)
  | bullet (text : String)
deriving DecidableEq, Repr

/-- The sensor-check recommendation prepended when sensor alerts exist. -/
def sensorRecText : String :=
  "Inspect Irradiance Sensor: Check the pyranometer for cleanliness and calibration."

/-- The default recommendations body when no recommendation was collected. -/
def optimalText : String :=
  "The system is performing optimally. Continue with regular preventive maintenance."

/-- Model of `generate_conclusion_text_phase2(insights, analysis_df, system_info)`
(source lines 192-240).  The two statistical models it invokes are
abstracted as parameters: `fit` is the IsolationForest passed through
`detect_anomalies_with_ml`, and `stf` is the result Prophet would return
from `calculate_short_term_forecast` when the 6-record minimum is met
(source lines 166-177 gate that call on `analysis_df.empty or
len(analysis_df) < 6`).  For an EMPTY analysis table the source raises
`KeyError` at line 217: `_get_full_years_df` returns a column-less
`pd.DataFrame()` for an empty input (lines 12-13), and
`full_years_df_for_trend['Year']` then fails before any narrative is
produced; this reachable error path is modelled by the `Except.error`
result.  Everything else — the block order, the tiered summary wording,
the anomaly bullets and the recommendations section — follows the
source. -/
def generate_conclusion_text_phase2 (fit : List (FVal × FVal × FVal) → List Int)
    (stf : Option STForecast) (insights : Insights) (rows : List EnrichedRow)
    (_cfg : SystemInfo) : Except String (List ReportBlock) :=
  if rows = [] then .error "KeyError: \x27Year\x27"
  else
  let annotated := detect_anomalies_with_ml fit rows
  let anomalous := annotated.filter (fun x => x.2 == -1)
  let avg_pi := insights.average_pi_pct
  let summary :=
    "Over the analysis period, your system generated a total of " ++
    fmtF 2 insights.total_actual_yield_mwh ++
    " MWh, with an average Performance Index (PI) of " ++ fmtF 2 avg_pi ++ "%. " ++
    (if fle (.fin 100) avg_pi then "This indicates excellent system performance."
     else if fle (.fin 97) avg_pi then "This indicates good system performance."
     else "This suggests some level of underperformance. See anomaly report below for details.")
  let stSection :=
    match (if rows.isEmpty || rows.length < 6 then none else stf) with
    | some fc =>
        [ReportBlock.h4 "Next Month Forecast",
         ReportBlock.body ("For **" ++ fc.date ++
           "**, the expected Performance Index (PI) is forecasted to be around **" ++
           fmtF 1 fc.pi ++ "%** (with a likely range of " ++ fmtF 1 fc.pi_lower ++
           "% to " ++ fmtF 1 fc.pi_upper ++ "%).")]
    | none => []
  let trendSection :=
    if 1 < (((get_full_years_df rows).map (fun r => r.Year)).dedup).length then
      [ReportBlock.h4 "Degradation Trend",
       ReportBlock.body "Degradation trend analysis is based on full years of data to ensure accuracy."]
    else []
  let anomalySection :=
    if anomalous.isEmpty then
      [ReportBlock.body "✅ No significant performance anomalies were detected."]
    else
      ReportBlock.body "Our ML model has identified the following months with unusual performance patterns:" ::
      anomalous.map (fun x =>
        ReportBlock.bullet ("**Month: " ++ formatMonthYear x.1.Date ++ "** (PI: " ++
          fmtF 1 x.1.pi_pct ++ "%)"))
  let recommendations := anomalous.map (fun x =>
    "Investigate Anomaly in " ++ formatMonthYear x.1.Date ++
    ": Review O&M logs and system components.")
  let recSection :=
    if recommendations.isEmpty then
      [ReportBlock.h3 "Actionable Recommendations", ReportBlock.body optimalText]
    else
      let recs :=
        if 0 < insights.sensor_alerts_count then sensorRecText :: recommendations
        else recommendations
      ReportBlock.h3 "Actionable Recommendations" :: (sortedDedup recs).map ReportBlock.bullet
  .ok
    ([ReportBlock.h3 "🤖 AI Performance Assistant Insights",
      ReportBlock.body "I\x27ve analyzed your PV plant\x27s performance data using the Studio OM V2 analysis engine and machine learning to generate key insights and actionable recommendations.",
      ReportBlock.h4 "Key Performance Insights",
      ReportBlock.body summary] ++ stSection ++ trendSection ++
     [ReportBlock.h4 "Machine Learning Anomaly Report"] ++ anomalySection ++ recSection)

/-- A minimal enriched row with the given date, used as concrete test data. -/
def simpleRow (y m : Int) (ay : ℚ) (pi : ℚ) : EnrichedRow :=
  { Date := 12 * y + (m - 1), Year := y, Month := m, op_year := 0,
    actual_yield_kwh := .fin ay, expected_yield_kwh := .fin ay,
    ideal_yield_kwh := .fin ay, temp_loss_kwh := .fin 0,
    other_losses_kwh := .fin 0, yield_variance_kwh := .fin 0,
    yield_variance_pct := .fin 0, actual_ghi_kwh_m2 := .fin 100,
    pvsyst_ghi_kwh_m2 := .fin 100, irr_index_pct := .fin 100,
    irr_alert := "✅ OK", pi_pct := .fin pi, actual_pr_percent := .fin 80,
    pvsyst_pr_percent := .fin 80, ambient_temp_c := .fin 28 }

/-- Configuration used by the concrete instances below. -/
def sampleCfg : SystemInfo :=
  { degradation_rate := 1/2, commissioning_year := 2020, temp_coeff := -(19/50),
    irr_alert_threshold := 20, forecast_period := 10, energy_guarantee := 1600 }

/-- Concrete January actual record (all fields finite). -/
def actualJan : ActualRow := ⟨24240, 2020, 1, .fin 1000, .fin 80, .fin 120, .fin 28⟩

/-- Concrete February actual record (all fields finite). -/
def actualFeb : ActualRow := ⟨24241, 2020, 2, .fin 1000, .fin 82, .fin 90, .fin 30⟩

/-- Concrete January baseline record. -/
def pvJan : PvsystRow := ⟨1, .fin 1100, .fin 80, .fin 100⟩

/-- Concrete February baseline record. -/
def pvFeb : PvsystRow := ⟨2, .fin 900, .fin 80, .fin 100⟩

/-- All numeric fields of an actual record are finite. -/
def finiteActual (a : ActualRow) : Bool :=
  isFinite a.actual_yield_kwh && isFinite a.actual_pr_percent &&
  isFinite a.actual_ghi_kwh_m2 && isFinite a.ambient_temp_c

/-- All numeric fields of a baseline record are finite. -/
def finitePvsyst (p : PvsystRow) : Bool :=
  isFinite p.pvsyst_yield_kwh && isFinite p.pvsyst_pr_percent &&
  isFinite p.pvsyst_ghi_kwh_m2

/-- All numeric fields of a joined record are finite. -/
def finiteJoined (j : JoinedRow) : Bool :=
  isFinite j.actual_yield_kwh && isFinite j.actual_pr_percent &&
  isFinite j.actual_ghi_kwh_m2 && isFinite j.ambient_temp_c &&
  isFinite j.pvsyst_yield_kwh && isFinite j.pvsyst_pr_percent &&
  isFinite j.pvsyst_ghi_kwh_m2

/-- Every derived numeric field of an enriched record is finite. -/
def derivedFinite (r : EnrichedRow) : Bool :=
  isFinite r.irr_index_pct && isFinite r.ideal_yield_kwh &&
  isFinite r.temp_loss_kwh && isFinite r.expected_yield_kwh &&
  isFinite r.pi_pct && isFinite r.other_losses_kwh &&
  isFinite r.yield_variance_kwh && isFinite r.yield_variance_pct

/-- A configuration with a steep temperature coefficient (-20 % per °C),
making the temperature loss dominate the ideal yield. -/
def cfgSteep : SystemInfo :=
  { degradation_rate := 1/2, commissioning_year := 2020, temp_coeff := -20,
    irr_alert_threshold := 20, forecast_period := 10, energy_guarantee := 1600 }

/-- A hot January record: its temperature loss exceeds its ideal yield, so
the expected yield is floored at 0.01. -/
def actualHot : ActualRow := ⟨24240, 2020, 1, .fin 50, .fin 80, .fin 100, .fin 35⟩

/-- A January record whose ambient temperature is nan (a non-finite input). -/
def actualNanTemp : ActualRow := ⟨24240, 2020, 1, .fin 50, .fin 80, .fin 100, .nan⟩

/-- A February record whose ambient temperature is nan (a non-finite input). -/
def actualNanTemp2 : ActualRow := ⟨24241, 2020, 2, .fin 60, .fin 80, .fin 110, .nan⟩

/-- A January baseline with zero baseline irradiance (degenerate denominator). -/
def pvZeroGhi : PvsystRow := ⟨1, .fin 1100, .fin 80, .fin 0⟩

/-- Configuration for the long-term forecast instances: one forecast year,
no degradation, zero guarantee. -/
def c6cfg : SystemInfo :=
  { degradation_rate := 0, commissioning_year := 2020, temp_coeff := -(19/50),
    irr_alert_threshold := 20, forecast_period := 1, energy_guarantee := 0 }

/-- A baseline covering all 12 months at 1000 kWh monthly yield. -/
def c6pv : List PvsystRow :=
  (List.range 12).map (fun i => ⟨(i:Int)+1, .fin 1000, .fin 80, .fin 100⟩)

/-- Analysis table with a full year 2020 (2000 kWh every month) and a single
partial month of 2021 (5000 kWh). -/
def c6rows : List EnrichedRow :=
  (List.range 12).map (fun i => simpleRow 2020 ((i:Int)+1) 2000 100) ++
  [simpleRow 2021 1 5000 100]

/-- Insights with pending sensor alerts and a sub-par average PI. -/
def insAlert : Insights :=
  { total_actual_yield_mwh := .fin 24, total_expected_yield_mwh := .fin 25,
    total_ideal_yield_mwh := .fin 26, total_temp_loss_mwh := .fin (-1),
    total_other_losses_mwh := .fin 1, overall_yield_variance_mwh := .fin (-1),
    overall_yield_variance_pct := .fin (-4), average_pi_pct := .fin 95,
    average_pr_pct := .fin 80, sensor_alerts_count := 2 }

/-- A two-month analysis table (below the anomaly and forecast minimums). -/
def rowsTwo : List EnrichedRow := [simpleRow 2020 1 2000 95, simpleRow 2020 2 2100 97]

/-- A three-month analysis table (enough to fit the anomaly detector). -/
def rowsThree : List EnrichedRow :=
  [simpleRow 2020 1 2000 95, simpleRow 2020 2 2100 97, simpleRow 2020 3 1900 96]

/-- A detector abstraction returning the given label for every row. -/
def constFit (v : Int) : List (FVal × FVal × FVal) → List Int :=
  fun l => l.map (fun _ => v)

/-- Analysis table like `c6rows` but with zero actual yields in the full
year 2020, keeping the arithmetic of the forecast pipeline trivial. -/
def z6rows : List EnrichedRow :=
  (List.range 12).map (fun i => simpleRow 2020 ((i:Int)+1) 0 100) ++
  [simpleRow 2021 1 5000 100]

/-- A 12-month baseline with zero monthly yield. -/
def z6pv : List PvsystRow :=
  (List.range 12).map (fun i => ⟨(i:Int)+1, .fin 0, .fin 80, .fin 100⟩)

/-- Subtraction is antisymmetric under IEEE negation, for every value
(including nan and the infinities). -/
theorem fsub_antisymm (a b : FVal) : fsub a b = fneg (fsub b a) := by
  cases a <;> cases b <;> simp [fsub, fadd, fneg]

/-- A value is finite exactly when it carries a rational. -/
theorem isFinite_iff {x : FVal} : isFinite x = true ↔ ∃ q : ℚ, x = .fin q := by
  cases x <;> simp [isFinite]

/-- Membership in the analysis table returned by `perform_phase2_analysis`
is membership in the enrichment of the merged rows (the final date sort is
a permutation). -/
theorem mem_analysis_table {cfg : SystemInfo} {actual : List ActualRow}
    {pvsyst : List PvsystRow} {r : EnrichedRow} :
    r ∈ (perform_phase2_analysis actual pvsyst cfg).1 ↔
    ∃ j ∈ mergeLeft actual pvsyst, r = enrichRow cfg j := by
  unfold perform_phase2_analysis sortByDate
  rw [(List.perm_insertionSort _ _).mem_iff, List.mem_map]
  constructor
  · rintro ⟨j, hj, hr⟩
    exact ⟨j, hj, hr.symm⟩
  · rintro ⟨j, hj, hr⟩
    exact ⟨j, hj, hr.symm⟩

/-- C9: for an empty record sequence, `get_loss_breakdown_data` never raises:
whatever the period argument is (recognized or not) and even with no insights
supplied, it returns the all-zero breakdown labelled "no data". -/
theorem loss_breakdown_empty_total (insights : Option Insights) (period : String) :
    get_loss_breakdown_data [] insights period =
      .ok { ideal := .fin 0, temp_loss := .fin 0, other_loss := .fin 0,
            actual := .fin 0, period_str := "no data" } := by
  rfl

/-- C8: with fewer than 3 records, `detect_anomalies_with_ml` marks every
record non-anomalous (flag 1) and never consults the outlier detector: the
result is the same for every `fit`. -/
theorem detect_anomalies_small_input (fit : List (FVal × FVal × FVal) → List Int)
    (rows : List EnrichedRow) (h : rows.length < 3) :
    detect_anomalies_with_ml fit rows = rows.map (fun r => (r, 1)) := by
  unfold detect_anomalies_with_ml
  simp [h]

/-- C8 witness: the 2-record instance, with a detector that would flag
everything, still comes back all-normal. -/
theorem detect_anomalies_small_input_witness :
    detect_anomalies_with_ml (fun l => l.map (fun _ => -1))
        [simpleRow 2020 1 100 95, simpleRow 2020 2 100 96] =
      [simpleRow 2020 1 100 95, simpleRow 2020 2 100 96].map (fun r => (r, 1)) :=
  detect_anomalies_small_input (fun l => l.map (fun _ => -1))
    [simpleRow 2020 1 100 95, simpleRow 2020 2 100 96] (by decide)

/-- C10: when the detector returns one prediction per row (as sklearn's
`predict` does), `detect_anomalies_with_ml` returns exactly the input rows in
order — projecting away the added `is_anomaly` flag recovers the input — and
no record is added or removed. -/
theorem detect_anomalies_frame (fit : List (FVal × FVal × FVal) → List Int)
    (rows : List EnrichedRow)
    (h : (fit (anomalyFeatures rows)).length = rows.length) :
    (detect_anomalies_with_ml fit rows).map Prod.fst = rows ∧
    (detect_anomalies_with_ml fit rows).length = rows.length := by
  unfold detect_anomalies_with_ml
  by_cases hc : rows.length < 3
  · rw [if_pos (by simp [hc])]
    constructor
    · rw [List.map_map]
      show List.map id rows = rows
      exact List.map_id rows
    · exact List.length_map rows _
  · have hempty : rows.isEmpty = false := by
      cases rows
      · simp at hc
      · rfl
    rw [if_neg (by simp [hempty, hc])]
    constructor
    · exact List.map_fst_zip _ _ (le_of_eq h.symm)
    · rw [List.length_zip, h, min_self]

/-- C10 witness: three concrete rows with a concrete detector (one
prediction per row) come back unchanged apart from the flag column. -/
theorem detect_anomalies_frame_witness :
    (detect_anomalies_with_ml (fun l => l.map (fun _ => -1))
        [simpleRow 2020 1 100 95, simpleRow 2020 2 100 96, simpleRow 2020 3 100 97]).map
        Prod.fst =
      [simpleRow 2020 1 100 95, simpleRow 2020 2 100 96, simpleRow 2020 3 100 97] ∧
    (detect_anomalies_with_ml (fun l => l.map (fun _ => -1))
        [simpleRow 2020 1 100 95, simpleRow 2020 2 100 96, simpleRow 2020 3 100 97]).length =
      [simpleRow 2020 1 100 95, simpleRow 2020 2 100 96, simpleRow 2020 3 100 97].length :=
  detect_anomalies_frame (fun l => l.map (fun _ => -1))
    [simpleRow 2020 1 100 95, simpleRow 2020 2 100 96, simpleRow 2020 3 100 97]
    (by decide)

/-- Actual record for a month (May) with no baseline entry. -/
def actualMay : ActualRow := ⟨24244, 2020, 5, .fin 900, .fin 78, .fin 110, .fin 33⟩

/-- C3 counterexample: with an actual May record and a baseline containing
only January, the merge does NOT fail and DOES produce a joined record for
May — refuting the claim that no joined record is produced for a month
without a baseline entry. -/
theorem merge_missing_month_refuted :
    ¬ (∀ a ∈ [actualMay], (∀ p ∈ [pvJan], p.Month ≠ a.Month) →
        ¬ ∃ j ∈ mergeLeft [actualMay] [pvJan], j.Month = a.Month) := by
  decide

/-- C3 (amended): `pd.merge(..., how='left')` is a left join, not a checked
join: an actual record whose month-of-year has no baseline entry still
yields a joined record — its actual fields intact and every baseline field
nan — and no error of any kind is raised (the function is total). -/
theorem merge_missing_month_left_join (actual : List ActualRow)
    (pvsyst : List PvsystRow) (a : ActualRow) (ha : a ∈ actual)
    (hnone : ∀ p ∈ pvsyst, p.Month ≠ a.Month) :
    joinMissing a ∈ mergeLeft actual pvsyst ∧
    (joinMissing a).Month = a.Month ∧
    (joinMissing a).actual_yield_kwh = a.actual_yield_kwh ∧
    (joinMissing a).pvsyst_yield_kwh = .nan ∧
    (joinMissing a).pvsyst_pr_percent = .nan ∧
    (joinMissing a).pvsyst_ghi_kwh_m2 = .nan := by
  refine ⟨?_, rfl, rfl, rfl, rfl, rfl⟩
  unfold mergeLeft
  rw [List.mem_flatMap]
  refine ⟨a, ha, ?_⟩
  have hfil : pvsyst.filter (fun p => p.Month == a.Month) = [] := by
    rw [List.filter_eq_nil_iff]
    intro p hp
    simpa using hnone p hp
  rw [hfil]
  simp

/-- C3 witness: the amended left-join behavior at the concrete May/January
instance. -/
theorem merge_missing_month_left_join_witness :
    joinMissing actualMay ∈ mergeLeft [actualMay] [pvJan] ∧
    (joinMissing actualMay).Month = actualMay.Month ∧
    (joinMissing actualMay).actual_yield_kwh = actualMay.actual_yield_kwh ∧
    (joinMissing actualMay).pvsyst_yield_kwh = .nan ∧
    (joinMissing actualMay).pvsyst_pr_percent = .nan ∧
    (joinMissing actualMay).pvsyst_ghi_kwh_m2 = .nan :=
  merge_missing_month_left_join [actualMay] [pvJan] actualMay (by decide) (by decide)

/-- The Python floor `max(x, 0.01)` on finite values is the mathematical max. -/
theorem pymax_fin_fin (s c : ℚ) : pymax (.fin s) (.fin c) = .fin (max c s) := by
  unfold pymax flt
  by_cases h : s < c
  · simp [h, max_eq_left h.le]
  · simp [h, max_eq_right (not_lt.mp h)]

/-- Python `max(x, c)` keeps `x` whenever `c ≤ x` holds as a float comparison. -/
theorem pymax_eq_self_of_fle (x c : FVal) (h : fle c x = true) : pymax x c = x := by
  cases x <;> cases c <;> simp_all [pymax, flt, fle]

/-- Replacing infinities by nan and then filling nan with 0 always yields a
finite value. -/
theorem sanitize_fin (x : FVal) : ∃ q : ℚ, fillna0 (replaceInf x) = .fin q := by
  cases x
  · exact ⟨_, rfl⟩
  · exact ⟨0, rfl⟩
  · exact ⟨0, rfl⟩
  · exact ⟨0, rfl⟩

/-- The sanitize-then-scale pattern of the index columns always yields a
finite value, whatever the ratio was. -/
theorem sanitize_mul_fin (x : FVal) (c : ℚ) :
    ∃ q : ℚ, fillna0 (fmul (replaceInf x) (.fin c)) = .fin q := by
  cases x
  · exact ⟨_, rfl⟩
  · exact ⟨0, rfl⟩
  · exact ⟨0, rfl⟩
  · exact ⟨0, rfl⟩

/-- Division of finite values with a nonzero denominator is exact division. -/
theorem fdiv_fin_fin_of_ne (a b : ℚ) (hb : b ≠ 0) :
    fdiv (.fin a) (.fin b) = .fin (a / b) := by
  show (if b = 0 then (if 0 < a then FVal.pinf else if a < 0 then FVal.ninf else FVal.nan)
    else FVal.fin (a / b)) = FVal.fin (a / b)
  rw [if_neg hb]

/-- Main finiteness computation for the per-row derivations: on a joined row
whose fields are all finite, the ideal yield and temperature loss are finite
rationals, the expected yield is exactly the 0.01-floored mathematical max
of their sum, and every derived column is finite. -/
theorem enrichRow_finite_spec (cfg : SystemInfo) (j : JoinedRow)
    (h : finiteJoined j = true) :
    ∃ iq tq : ℚ, (enrichRow cfg j).ideal_yield_kwh = .fin iq ∧
      (enrichRow cfg j).temp_loss_kwh = .fin tq ∧
      (enrichRow cfg j).expected_yield_kwh = .fin (max (1/100) (iq + tq)) ∧
      derivedFinite (enrichRow cfg j) = true := by
  simp only [finiteJoined, Bool.and_eq_true] at h
  obtain ⟨⟨⟨⟨⟨⟨h1, h2⟩, h3⟩, h4⟩, h5⟩, h6⟩, h7⟩ := h
  obtain ⟨ay, hay⟩ := isFinite_iff.mp h1
  obtain ⟨amb, hamb⟩ := isFinite_iff.mp h4
  obtain ⟨py, hpy⟩ := isFinite_iff.mp h5
  obtain ⟨rq, hrq⟩ := sanitize_fin (fdiv j.actual_ghi_kwh_m2 j.pvsyst_ghi_kwh_m2)
  have hIdeal : (enrichRow cfg j).ideal_yield_kwh = .fin (py * rq) := by
    show fmul j.pvsyst_yield_kwh
      (fillna0 (replaceInf (fdiv j.actual_ghi_kwh_m2 j.pvsyst_ghi_kwh_m2))) = _
    rw [hpy, hrq]
    rfl
  have hTemp : (enrichRow cfg j).temp_loss_kwh =
      .fin (py * rq * (cfg.temp_coeff / 100) * (amb - 25)) := by
    show fmul (fmul (enrichRow cfg j).ideal_yield_kwh (.fin (cfg.temp_coeff / 100)))
      (fsub j.ambient_temp_c (.fin 25)) = _
    rw [hIdeal, hamb]
    simp only [fmul, fsub, fadd, fneg, FVal.fin.injEq]
    ring
  have hExp : (enrichRow cfg j).expected_yield_kwh =
      .fin (max (1/100) (py * rq + py * rq * (cfg.temp_coeff / 100) * (amb - 25))) := by
    show pymax (fadd (enrichRow cfg j).ideal_yield_kwh (enrichRow cfg j).temp_loss_kwh)
      (.fin (1/100)) = _
    rw [hIdeal, hTemp]
    exact pymax_fin_fin _ _
  have hE0 : max ((1:ℚ)/100) (py * rq + py * rq * (cfg.temp_coeff / 100) * (amb - 25)) ≠ 0 := by
    have : (0:ℚ) < 1/100 := by norm_num
    exact ne_of_gt (lt_of_lt_of_le this (le_max_left _ _))
  refine ⟨py * rq, py * rq * (cfg.temp_coeff / 100) * (amb - 25), hIdeal, hTemp, hExp, ?_⟩
  simp only [derivedFinite, Bool.and_eq_true]
  refine ⟨⟨⟨⟨⟨⟨⟨?_, ?_⟩, ?_⟩, ?_⟩, ?_⟩, ?_⟩, ?_⟩, ?_⟩
  · obtain ⟨q, hq⟩ := sanitize_mul_fin (fdiv j.actual_ghi_kwh_m2 j.pvsyst_ghi_kwh_m2) 100
    show isFinite (fillna0 (fmul (replaceInf (fdiv j.actual_ghi_kwh_m2 j.pvsyst_ghi_kwh_m2))
      (.fin 100))) = true
    rw [hq]
    rfl
  · rw [hIdeal]
    rfl
  · rw [hTemp]
    rfl
  · rw [hExp]
    rfl
  · show isFinite (fmul (fdiv j.actual_yield_kwh (enrichRow cfg j).expected_yield_kwh)
      (.fin 100)) = true
    rw [hay, hExp, fdiv_fin_fin_of_ne _ _ hE0]
    rfl
  · show isFinite (fsub (enrichRow cfg j).expected_yield_kwh j.actual_yield_kwh) = true
    rw [hay, hExp]
    rfl
  · show isFinite (fsub j.actual_yield_kwh (enrichRow cfg j).expected_yield_kwh) = true
    rw [hay, hExp]
    rfl
  · obtain ⟨q, hq⟩ := sanitize_mul_fin
      (fdiv (enrichRow cfg j).yield_variance_kwh (enrichRow cfg j).expected_yield_kwh) 100
    show isFinite (fillna0 (fmul (replaceInf (fdiv (enrichRow cfg j).yield_variance_kwh
      (enrichRow cfg j).expected_yield_kwh)) (.fin 100))) = true
    rw [hq]
    rfl

/-- Every row of the left merge is fully finite when the inputs are finite
and every actual month-of-year has a baseline match. -/
theorem mergeLeft_finite {actual : List ActualRow} {pvsyst : List PvsystRow}
    (hA : ∀ a ∈ actual, finiteActual a = true)
    (hP : ∀ p ∈ pvsyst, finitePvsyst p = true)
    (hcov : ∀ a ∈ actual, ∃ p ∈ pvsyst, p.Month = a.Month) :
    ∀ j ∈ mergeLeft actual pvsyst, finiteJoined j = true := by
  intro j hj
  unfold mergeLeft at hj
  rw [List.mem_flatMap] at hj
  obtain ⟨a, ha, hja⟩ := hj
  rcases hfil : pvsyst.filter (fun p => p.Month == a.Month) with _ | ⟨p0, ps⟩
  · obtain ⟨p, hp, hpm⟩ := hcov a ha
    have hmem : p ∈ pvsyst.filter (fun p => p.Month == a.Month) := by
      rw [List.mem_filter]
      exact ⟨hp, by simp [hpm]⟩
    rw [hfil] at hmem
    simp at hmem
  · rw [hfil] at hja
    change j ∈ (p0 :: ps).map (joinWith a) at hja
    rw [List.mem_map] at hja
    obtain ⟨p, hpmem, rfl⟩ := hja
    have hp : p ∈ pvsyst := List.mem_of_mem_filter (hfil ▸ hpmem)
    have ha' := hA a ha
    have hp' := hP p hp
    simp only [finiteActual, Bool.and_eq_true] at ha'
    simp only [finitePvsyst, Bool.and_eq_true] at hp'
    obtain ⟨⟨⟨a1, a2⟩, a3⟩, a4⟩ := ha'
    obtain ⟨⟨b1, b2⟩, b3⟩ := hp'
    simp only [finiteJoined, joinWith, Bool.and_eq_true]
    exact ⟨⟨⟨⟨⟨⟨a1, a2⟩, a3⟩, a4⟩, b1⟩, b2⟩, b3⟩

/-- C1 counterexample: with a steep temperature coefficient and a hot month,
the floored expected yield (0.01 kWh) differs from
`ideal_yield + temperature_loss` (-1100 kWh) by 1100.01 kWh, so the first
accounting identity fails as stated (far beyond any floating tolerance). -/
theorem accounting_identity_refuted :
    ¬ (∀ r ∈ (perform_phase2_analysis [actualHot] [pvJan] cfgSteep).1,
        r.expected_yield_kwh = fadd r.ideal_yield_kwh r.temp_loss_kwh) := by
  intro h
  have hmem : enrichRow cfgSteep (joinWith actualHot pvJan) ∈
      (perform_phase2_analysis [actualHot] [pvJan] cfgSteep).1 := by
    rw [show (perform_phase2_analysis [actualHot] [pvJan] cfgSteep).1 =
      [enrichRow cfgSteep (joinWith actualHot pvJan)] by rfl]
    exact List.mem_singleton.mpr rfl
  have heq := h _ hmem
  rw [show (enrichRow cfgSteep (joinWith actualHot pvJan)).expected_yield_kwh =
        .fin (1/100) by
        norm_num [enrichRow, joinWith, actualHot, pvJan, cfgSteep, fdiv, fmul, fadd, fsub,
          fneg, replaceInf, fillna0, pymax, flt],
      show fadd (enrichRow cfgSteep (joinWith actualHot pvJan)).ideal_yield_kwh
        (enrichRow cfgSteep (joinWith actualHot pvJan)).temp_loss_kwh = .fin (-1100) by
        norm_num [enrichRow, joinWith, actualHot, pvJan, cfgSteep, fdiv, fmul, fadd, fsub,
          fneg, replaceInf, fillna0, pymax, flt]] at heq
  simp only [FVal.fin.injEq] at heq
  norm_num at heq

/-- C1 (amended): for every record of the analysis table,
`other_losses = expected − actual`, `yield_variance = actual − expected =
−other_losses` hold exactly, and `expected = max(0.01, ideal + temp_loss)`
(Python float max); the unfloored identity `expected = ideal + temp_loss`
holds exactly when `0.01 ≤ ideal + temp_loss` compares true. -/
theorem accounting_identity (cfg : SystemInfo) (actual : List ActualRow)
    (pvsyst : List PvsystRow) (r : EnrichedRow)
    (hr : r ∈ (perform_phase2_analysis actual pvsyst cfg).1) :
    r.other_losses_kwh = fsub r.expected_yield_kwh r.actual_yield_kwh ∧
    r.yield_variance_kwh = fsub r.actual_yield_kwh r.expected_yield_kwh ∧
    r.yield_variance_kwh = fneg r.other_losses_kwh ∧
    r.expected_yield_kwh = pymax (fadd r.ideal_yield_kwh r.temp_loss_kwh) (.fin (1/100)) ∧
    (fle (.fin (1/100)) (fadd r.ideal_yield_kwh r.temp_loss_kwh) = true →
      r.expected_yield_kwh = fadd r.ideal_yield_kwh r.temp_loss_kwh) := by
  rw [mem_analysis_table] at hr
  obtain ⟨j, hj, rfl⟩ := hr
  refine ⟨rfl, rfl, fsub_antisymm _ _, rfl, ?_⟩
  intro h5
  exact pymax_eq_self_of_fle _ _ h5

/-- C1 witness: the amended accounting identity at the concrete January
record. -/
theorem accounting_identity_witness :
    (enrichRow sampleCfg (joinWith actualJan pvJan)).other_losses_kwh =
      fsub (enrichRow sampleCfg (joinWith actualJan pvJan)).expected_yield_kwh
        (enrichRow sampleCfg (joinWith actualJan pvJan)).actual_yield_kwh ∧
    (enrichRow sampleCfg (joinWith actualJan pvJan)).yield_variance_kwh =
      fsub (enrichRow sampleCfg (joinWith actualJan pvJan)).actual_yield_kwh
        (enrichRow sampleCfg (joinWith actualJan pvJan)).expected_yield_kwh ∧
    (enrichRow sampleCfg (joinWith actualJan pvJan)).yield_variance_kwh =
      fneg (enrichRow sampleCfg (joinWith actualJan pvJan)).other_losses_kwh ∧
    (enrichRow sampleCfg (joinWith actualJan pvJan)).expected_yield_kwh =
      pymax (fadd (enrichRow sampleCfg (joinWith actualJan pvJan)).ideal_yield_kwh
        (enrichRow sampleCfg (joinWith actualJan pvJan)).temp_loss_kwh) (.fin (1/100)) ∧
    (fle (.fin (1/100)) (fadd (enrichRow sampleCfg (joinWith actualJan pvJan)).ideal_yield_kwh
        (enrichRow sampleCfg (joinWith actualJan pvJan)).temp_loss_kwh) = true →
      (enrichRow sampleCfg (joinWith actualJan pvJan)).expected_yield_kwh =
        fadd (enrichRow sampleCfg (joinWith actualJan pvJan)).ideal_yield_kwh
          (enrichRow sampleCfg (joinWith actualJan pvJan)).temp_loss_kwh) :=
  accounting_identity sampleCfg [actualJan] [pvJan]
    (enrichRow sampleCfg (joinWith actualJan pvJan)) (by
      rw [show (perform_phase2_analysis [actualJan] [pvJan] sampleCfg).1 =
        [enrichRow sampleCfg (joinWith actualJan pvJan)] by rfl]
      exact List.mem_singleton.mpr rfl)

/-- C2 counterexample: a record whose ambient temperature is nan (a
non-finite numeric input) is NOT sanitized to 0: the nan propagates into
the temperature loss, expected yield, performance index and loss columns,
so not every derived field of the output is finite. -/
theorem analysis_no_nonfinite_refuted :
    ¬ (∀ r ∈ (perform_phase2_analysis [actualNanTemp] [pvJan] sampleCfg).1,
        derivedFinite r = true) := by
  intro h
  have hmem : enrichRow sampleCfg (joinWith actualNanTemp pvJan) ∈
      (perform_phase2_analysis [actualNanTemp] [pvJan] sampleCfg).1 := by
    rw [show (perform_phase2_analysis [actualNanTemp] [pvJan] sampleCfg).1 =
      [enrichRow sampleCfg (joinWith actualNanTemp pvJan)] by rfl]
    exact List.mem_singleton.mpr rfl
  have heq := h _ hmem
  rw [show derivedFinite (enrichRow sampleCfg (joinWith actualNanTemp pvJan)) = false by
    norm_num [derivedFinite, enrichRow, joinWith, actualNanTemp, pvJan, sampleCfg, fdiv,
      fmul, fadd, fsub, fneg, replaceInf, fillna0, pymax, flt, isFinite]] at heq
  exact Bool.false_ne_true heq

/-- C2 (amended): when every numeric input field is finite (zero baseline
irradiance and zero baseline yield included) and every actual month-of-year
has a baseline match, every derived field of every output record is finite:
the non-finite values arising from the ratio divisions are sanitized to 0. -/
theorem analysis_no_nonfinite (cfg : SystemInfo) (actual : List ActualRow)
    (pvsyst : List PvsystRow)
    (hA : ∀ a ∈ actual, finiteActual a = true)
    (hP : ∀ p ∈ pvsyst, finitePvsyst p = true)
    (hcov : ∀ a ∈ actual, ∃ p ∈ pvsyst, p.Month = a.Month) :
    ∀ r ∈ (perform_phase2_analysis actual pvsyst cfg).1, derivedFinite r = true := by
  intro r hr
  rw [mem_analysis_table] at hr
  obtain ⟨j, hj, rfl⟩ := hr
  obtain ⟨_, _, _, _, _, hd⟩ := enrichRow_finite_spec cfg j (mergeLeft_finite hA hP hcov j hj)
  exact hd

/-- C2 witness: with a zero baseline irradiance (the degenerate denominator
the spec highlights) all derived fields of the enriched record are finite. -/
theorem analysis_no_nonfinite_witness :
    derivedFinite (enrichRow sampleCfg (joinWith actualJan pvZeroGhi)) = true :=
  analysis_no_nonfinite sampleCfg [actualJan] [pvZeroGhi] (by decide) (by decide)
    (by decide) (enrichRow sampleCfg (joinWith actualJan pvZeroGhi)) (by
      rw [show (perform_phase2_analysis [actualJan] [pvZeroGhi] sampleCfg).1 =
        [enrichRow sampleCfg (joinWith actualJan pvZeroGhi)] by rfl]
      exact List.mem_singleton.mpr rfl)

/-- C4 counterexample: with a nan ambient temperature the expected yield is
nan, and `0.01 ≤ expected_yield` is false — the floor does not hold for all
inputs. -/
theorem expected_yield_floor_refuted :
    ¬ (∀ r ∈ (perform_phase2_analysis [actualNanTemp2] [pvFeb] sampleCfg).1,
        fle (.fin (1/100)) r.expected_yield_kwh = true) := by
  intro h
  have hmem : enrichRow sampleCfg (joinWith actualNanTemp2 pvFeb) ∈
      (perform_phase2_analysis [actualNanTemp2] [pvFeb] sampleCfg).1 := by
    rw [show (perform_phase2_analysis [actualNanTemp2] [pvFeb] sampleCfg).1 =
      [enrichRow sampleCfg (joinWith actualNanTemp2 pvFeb)] by rfl]
    exact List.mem_singleton.mpr rfl
  have heq := h _ hmem
  rw [show fle (.fin (1/100))
    (enrichRow sampleCfg (joinWith actualNanTemp2 pvFeb)).expected_yield_kwh = false by
    norm_num [enrichRow, joinWith, actualNanTemp2, pvFeb, sampleCfg, fdiv, fmul, fadd,
      fsub, fneg, replaceInf, fillna0, pymax, flt, fle]] at heq
  exact Bool.false_ne_true heq

/-- C4 (amended): on finite inputs with full baseline coverage, every
record's expected yield equals the mathematical `max(0.01, ideal + temp_loss)`
and is therefore at least 0.01. -/
theorem expected_yield_floor (cfg : SystemInfo) (actual : List ActualRow)
    (pvsyst : List PvsystRow)
    (hA : ∀ a ∈ actual, finiteActual a = true)
    (hP : ∀ p ∈ pvsyst, finitePvsyst p = true)
    (hcov : ∀ a ∈ actual, ∃ p ∈ pvsyst, p.Month = a.Month) :
    ∀ r ∈ (perform_phase2_analysis actual pvsyst cfg).1,
      ∃ iq tq : ℚ, r.ideal_yield_kwh = .fin iq ∧ r.temp_loss_kwh = .fin tq ∧
        r.expected_yield_kwh = .fin (max (1/100) (iq + tq)) ∧
        fle (.fin (1/100)) r.expected_yield_kwh = true := by
  intro r hr
  rw [mem_analysis_table] at hr
  obtain ⟨j, hj, rfl⟩ := hr
  obtain ⟨iq, tq, h1, h2, h3, _⟩ :=
    enrichRow_finite_spec cfg j (mergeLeft_finite hA hP hcov j hj)
  refine ⟨iq, tq, h1, h2, h3, ?_⟩
  rw [h3]
  simp [fle]

/-- C4 witness: the floored expected yield at the concrete February record. -/
theorem expected_yield_floor_witness :
    ∃ iq tq : ℚ,
      (enrichRow sampleCfg (joinWith actualFeb pvFeb)).ideal_yield_kwh = .fin iq ∧
      (enrichRow sampleCfg (joinWith actualFeb pvFeb)).temp_loss_kwh = .fin tq ∧
      (enrichRow sampleCfg (joinWith actualFeb pvFeb)).expected_yield_kwh =
        .fin (max (1/100) (iq + tq)) ∧
      fle (.fin (1/100))
        (enrichRow sampleCfg (joinWith actualFeb pvFeb)).expected_yield_kwh = true :=
  expected_yield_floor sampleCfg [actualFeb] [pvFeb] (by decide) (by decide) (by decide)
    (enrichRow sampleCfg (joinWith actualFeb pvFeb)) (by
      rw [show (perform_phase2_analysis [actualFeb] [pvFeb] sampleCfg).1 =
        [enrichRow sampleCfg (joinWith actualFeb pvFeb)] by rfl]
      exact List.mem_singleton.mpr rfl)

/-- Auxiliary: the pandas skip-nan fold on a list of finite values is the
rational sum, for any starting accumulator. -/
theorem fsumP_go (l : List FVal) (h : ∀ x ∈ l, isFinite x = true) (acc : ℚ) :
    l.foldl (fun acc x => if x = .nan then acc else fadd acc x) (.fin acc) =
    .fin (acc + (l.map ratOf).sum) := by
  induction l generalizing acc with
  | nil => simp
  | cons a as ih =>
      obtain ⟨q, rfl⟩ := isFinite_iff.mp (h a (List.mem_cons_self a as))
      simp only [List.foldl_cons]
      rw [if_neg (by simp)]
      show List.foldl (fun acc x => if x = FVal.nan then acc else fadd acc x)
        (FVal.fin (acc + q)) as = _
      rw [ih (fun x hx => h x (List.mem_cons_of_mem _ hx)) (acc + q)]
      simp only [List.map_cons, List.sum_cons, ratOf, FVal.fin.injEq]
      ring

/-- The pandas sum of a finite column is the exact rational sum. -/
theorem fsumP_eq_sum (l : List FVal) (h : ∀ x ∈ l, isFinite x = true) :
    fsumP l = .fin ((l.map ratOf).sum) := by
  unfold fsumP
  rw [fsumP_go l h 0]
  simp

/-- The pandas sum of a finite mapped column, in mapped form. -/
theorem fsumP_map_eq {α : Type} (l : List α) (f : α → FVal)
    (h : ∀ x ∈ l, isFinite (f x) = true) :
    fsumP (l.map f) = .fin ((l.map (fun x => ratOf (f x))).sum) := by
  rw [fsumP_eq_sum _ (by
    intro x hx
    obtain ⟨y, hy, rfl⟩ := List.mem_map.mp hx
    exact h y hy), List.map_map]
  rfl

/-- Sorting the analysis table by date does not change column sums. -/
theorem map_sum_sortByDate (rows : List EnrichedRow) (f : EnrichedRow → ℚ) :
    ((sortByDate rows).map f).sum = (rows.map f).sum :=
  ((List.perm_insertionSort _ rows).map f).sum_eq

/-- C5: on finite inputs with full baseline coverage, the insights summary
satisfies the aggregation contract: the total actual yield in MWh is the
sum of the actual yields over all output records divided by 1000, and the
average performance index is the yield-weighted `100 × Σactual / Σexpected`
(0 when the denominator is 0), not the mean of the monthly indices. -/
theorem insights_aggregation (cfg : SystemInfo) (actual : List ActualRow)
    (pvsyst : List PvsystRow)
    (hA : ∀ a ∈ actual, finiteActual a = true)
    (hP : ∀ p ∈ pvsyst, finitePvsyst p = true)
    (hcov : ∀ a ∈ actual, ∃ p ∈ pvsyst, p.Month = a.Month) :
    (perform_phase2_analysis actual pvsyst cfg).2.total_actual_yield_mwh =
      .fin ((((perform_phase2_analysis actual pvsyst cfg).1.map
        (fun r => ratOf r.actual_yield_kwh)).sum) / 1000) ∧
    (perform_phase2_analysis actual pvsyst cfg).2.average_pi_pct =
      .fin (if (((perform_phase2_analysis actual pvsyst cfg).1.map
            (fun r => ratOf r.expected_yield_kwh)).sum) = 0 then 0
        else 100 * (((perform_phase2_analysis actual pvsyst cfg).1.map
            (fun r => ratOf r.actual_yield_kwh)).sum) /
          (((perform_phase2_analysis actual pvsyst cfg).1.map
            (fun r => ratOf r.expected_yield_kwh)).sum)) := by
  have hfinJ := mergeLeft_finite hA hP hcov
  have hact : ∀ r ∈ (mergeLeft actual pvsyst).map (enrichRow cfg),
      isFinite r.actual_yield_kwh = true := by
    intro r hr
    obtain ⟨j, hj, rfl⟩ := List.mem_map.mp hr
    have hf := hfinJ j hj
    simp only [finiteJoined, Bool.and_eq_true] at hf
    exact hf.1.1.1.1.1.1
  have hexp : ∀ r ∈ (mergeLeft actual pvsyst).map (enrichRow cfg),
      ∃ e : ℚ, r.expected_yield_kwh = .fin e ∧ 1/100 ≤ e := by
    intro r hr
    obtain ⟨j, hj, rfl⟩ := List.mem_map.mp hr
    obtain ⟨iq, tq, _, _, h3, _⟩ := enrichRow_finite_spec cfg j (hfinJ j hj)
    exact ⟨_, h3, le_max_left _ _⟩
  have hfexp : ∀ r ∈ (mergeLeft actual pvsyst).map (enrichRow cfg),
      isFinite r.expected_yield_kwh = true := by
    intro r hr
    obtain ⟨e, he, _⟩ := hexp r hr
    rw [he]
    rfl
  have hsumA : fsumP (((mergeLeft actual pvsyst).map (enrichRow cfg)).map
      (fun r => r.actual_yield_kwh)) =
      .fin ((((mergeLeft actual pvsyst).map (enrichRow cfg)).map
        (fun r => ratOf r.actual_yield_kwh)).sum) :=
    fsumP_map_eq _ _ hact
  have hsumE : fsumP (((mergeLeft actual pvsyst).map (enrichRow cfg)).map
      (fun r => r.expected_yield_kwh)) =
      .fin ((((mergeLeft actual pvsyst).map (enrichRow cfg)).map
        (fun r => ratOf r.expected_yield_kwh)).sum) :=
    fsumP_map_eq _ _ hfexp
  have hEnonneg : 0 ≤ (((mergeLeft actual pvsyst).map (enrichRow cfg)).map
      (fun r => ratOf r.expected_yield_kwh)).sum := by
    apply List.sum_nonneg
    intro x hx
    obtain ⟨r, hr, rfl⟩ := List.mem_map.mp hx
    obtain ⟨e, he, he'⟩ := hexp r hr
    rw [he]
    show (0:ℚ) ≤ e
    linarith
  constructor
  · show (mkInsights ((mergeLeft actual pvsyst).map (enrichRow cfg))).total_actual_yield_mwh =
      .fin ((((sortByDate ((mergeLeft actual pvsyst).map (enrichRow cfg))).map
        (fun r => ratOf r.actual_yield_kwh)).sum) / 1000)
    rw [map_sum_sortByDate]
    show fdiv (fsumP (((mergeLeft actual pvsyst).map (enrichRow cfg)).map
      (fun r => r.actual_yield_kwh))) (.fin 1000) = _
    rw [hsumA, fdiv_fin_fin_of_ne _ _ (by norm_num)]
  · show (mkInsights ((mergeLeft actual pvsyst).map (enrichRow cfg))).average_pi_pct =
      .fin (if (((sortByDate ((mergeLeft actual pvsyst).map (enrichRow cfg))).map
          (fun r => ratOf r.expected_yield_kwh)).sum) = 0 then 0
        else 100 * (((sortByDate ((mergeLeft actual pvsyst).map (enrichRow cfg))).map
          (fun r => ratOf r.actual_yield_kwh)).sum) /
          (((sortByDate ((mergeLeft actual pvsyst).map (enrichRow cfg))).map
          (fun r => ratOf r.expected_yield_kwh)).sum))
    rw [map_sum_sortByDate, map_sum_sortByDate]
    show (if flt (.fin 0) (fsumP (((mergeLeft actual pvsyst).map (enrichRow cfg)).map
        (fun r => r.expected_yield_kwh))) then
        fmul (fdiv (fsumP (((mergeLeft actual pvsyst).map (enrichRow cfg)).map
          (fun r => r.actual_yield_kwh)))
          (fsumP (((mergeLeft actual pvsyst).map (enrichRow cfg)).map
          (fun r => r.expected_yield_kwh)))) (.fin 100)
      else .fin 0) = _
    rw [hsumA, hsumE]
    by_cases hse : (((mergeLeft actual pvsyst).map (enrichRow cfg)).map
        (fun r => ratOf r.expected_yield_kwh)).sum = 0
    · rw [hse]
      rw [show flt (.fin 0) (.fin 0) = false from decide_eq_false (lt_irrefl (0:ℚ))]
      simp
    · have hpos : (0:ℚ) < (((mergeLeft actual pvsyst).map (enrichRow cfg)).map
          (fun r => ratOf r.expected_yield_kwh)).sum := lt_of_le_of_ne hEnonneg (Ne.symm hse)
      rw [show flt (.fin 0) (.fin ((((mergeLeft actual pvsyst).map (enrichRow cfg)).map
        (fun r => ratOf r.expected_yield_kwh)).sum)) = true from decide_eq_true hpos]
      rw [if_pos rfl, fdiv_fin_fin_of_ne _ _ hse, if_neg hse]
      show FVal.fin _ = FVal.fin _
      rw [FVal.fin.injEq]
      ring

/-- C5 witness: the aggregation identities at a concrete two-month input
with different expected yields. -/
theorem insights_aggregation_witness :
    (perform_phase2_analysis [actualJan, actualFeb] [pvJan, pvFeb] sampleCfg).2.total_actual_yield_mwh =
      .fin ((((perform_phase2_analysis [actualJan, actualFeb] [pvJan, pvFeb] sampleCfg).1.map
        (fun r => ratOf r.actual_yield_kwh)).sum) / 1000) ∧
    (perform_phase2_analysis [actualJan, actualFeb] [pvJan, pvFeb] sampleCfg).2.average_pi_pct =
      .fin (if (((perform_phase2_analysis [actualJan, actualFeb] [pvJan, pvFeb] sampleCfg).1.map
            (fun r => ratOf r.expected_yield_kwh)).sum) = 0 then 0
        else 100 * (((perform_phase2_analysis [actualJan, actualFeb] [pvJan, pvFeb] sampleCfg).1.map
            (fun r => ratOf r.actual_yield_kwh)).sum) /
          (((perform_phase2_analysis [actualJan, actualFeb] [pvJan, pvFeb] sampleCfg).1.map
            (fun r => ratOf r.expected_yield_kwh)).sum)) :=
  insights_aggregation sampleCfg [actualJan, actualFeb] [pvJan, pvFeb]
    (by decide) (by decide) (by decide)

/-- Filtering after mapping is mapping after filtering the composition. -/
theorem filter_map_comm {α β : Type} (l : List α) (f : α → β) (p : β → Bool) :
    (l.map f).filter p = (l.filter (fun a => p (f a))).map f := by
  induction l with
  | nil => rfl
  | cons a as ih =>
      by_cases h : p (f a) = true <;>
        simp [List.filter_cons, h, ih]

/-- A predicate implication bounds filtered lengths. -/
theorem length_filter_le_of_imp {α : Type} (l : List α) (p q : α → Bool)
    (h : ∀ a ∈ l, p a = true → q a = true) :
    (l.filter p).length ≤ (l.filter q).length := by
  induction l with
  | nil => simp
  | cons a as ih =>
      have ih' := ih (fun x hx hp => h x (List.mem_cons_of_mem _ hx) hp)
      by_cases hp : p a = true
      · have hq := h a (List.mem_cons_self a as) hp
        simp only [List.filter_cons, hp, hq, if_true, List.length_cons]
        omega
      · rw [Bool.not_eq_true] at hp
        by_cases hq : q a = true
        · simp only [List.filter_cons, hp, hq, Bool.false_eq_true, if_false, if_true,
            List.length_cons]
          omega
        · rw [Bool.not_eq_true] at hq
          simp only [List.filter_cons, hp, hq, Bool.false_eq_true, if_false]
          exact ih' 

/-- Searching a key-indexed map hits the entry of any present key. -/
theorem find?_pair_map (keys : List Int) (g : Int → FVal) (y : Int) (h : y ∈ keys) :
    (keys.map (fun k => (k, g k))).find? (fun a => a.1 == y) = some (y, g y) := by
  induction keys with
  | nil => cases h
  | cons k ks ih =>
      rw [List.map_cons, List.find?_cons]
      by_cases hk : k = y
      · subst hk
        simp
      · have hy : y ∈ ks := by
          rcases List.mem_cons.mp h with h' | h'
          · exact absurd h'.symm hk
          · exact h'
        have : ((k, g k).1 == y) = false := by simp [hk]
        rw [this]
        exact ih hy

/-- The per-key sum entry of `groupSum` for any key present in the input. -/
theorem groupSum_find? (l : List (Int × FVal)) (y : Int)
    (h : y ∈ l.map (fun x => x.1)) :
    (groupSum l).find? (fun a => a.1 == y) =
      some (y, fsumP ((l.filter (fun x => x.1 == y)).map (fun x => x.2))) := by
  unfold groupSum
  apply find?_pair_map
  rw [(List.perm_insertionSort _ _).mem_iff, List.mem_dedup]
  exact h

/-- Membership of the per-key sum entry in `groupSum`. -/
theorem groupSum_mem (l : List (Int × FVal)) (y : Int)
    (h : y ∈ l.map (fun x => x.1)) :
    (y, fsumP ((l.filter (fun x => x.1 == y)).map (fun x => x.2))) ∈ groupSum l := by
  unfold groupSum
  refine List.mem_map.mpr ⟨y, ?_, rfl⟩
  rw [(List.perm_insertionSort _ _).mem_iff, List.mem_dedup]
  exact h

/-- Dividing the values of a keyed list preserves `find?` results. -/
theorem find?_map_div (lp : List (Int × FVal)) (y : Int) (v : FVal)
    (h : lp.find? (fun a => a.1 == y) = some (y, v)) :
    (lp.map (fun x => (x.1, fdiv x.2 (.fin 1000)))).find? (fun a => a.1 == y) =
      some (y, fdiv v (.fin 1000)) := by
  induction lp with
  | nil => simp at h
  | cons a as ih =>
      rw [List.find?_cons] at h
      rw [List.map_cons, List.find?_cons]
      by_cases hk : (a.1 == y) = true
      · rw [hk] at h
        have ha : a = (y, v) := by
          injection h
        rw [show (((a.1, fdiv a.2 (.fin 1000)) : Int × FVal).1 == y) = true from hk]
        rw [ha]
      · rw [Bool.not_eq_true] at hk
        rw [hk] at h
        rw [show (((a.1, fdiv a.2 (.fin 1000)) : Int × FVal).1 == y) = false from hk]
        exact ih h

/-- Projecting the values out of the year-keyed pairs of a filtered map. -/
theorem filter_pairmap (l : List EnrichedRow) (y : Int) :
    ((l.map (fun r => (r.Year, r.actual_yield_kwh))).filter
      (fun x => x.1 == y)).map (fun x => x.2) =
    (l.filter (fun r => r.Year == y)).map (fun r => r.actual_yield_kwh) := by
  induction l with
  | nil => rfl
  | cons a as ih =>
      simp only [List.map_cons, List.filter_cons]
      by_cases h : (a.Year == y) = true
      · simp [h, ih]
      · rw [Bool.not_eq_true] at h
        simp [h, ih]

/-- C6 (amended): for every calendar year with a FULL 12 months of actual
data (and consistent date fields, finite actual yields, a nonempty
baseline), the long-term forecast table contains a row for that year whose
`Forecasted Yield (MWh)` is that year's actual yearly yield divided by
1000 — the actual figure overrides the model's prediction.  (A year with
only partial actual data is not overridden; see the counterexample.) -/
theorem longterm_actual_override (predictPI : Int → ℚ) (rows : List EnrichedRow)
    (pvsyst : List PvsystRow) (cfg : SystemInfo) (y : Int)
    (hpv : pvsyst ≠ [])
    (hfy : isFullYear rows y = true)
    (hyr : ∃ r ∈ rows, r.Year = y)
    (hconsist : ∀ r ∈ rows, r.Year = dateYear r.Date)
    (hfin : ∀ r ∈ rows, isFinite r.actual_yield_kwh = true) :
    ∃ fr ∈ calculate_long_term_forecast predictPI rows pvsyst cfg,
      fr.Year = y ∧
      fr.forecasted_yield_mwh =
        fdiv (fsumP ((rows.filter (fun r => r.Year == y)).map
          (fun r => r.actual_yield_kwh))) (.fin 1000) := by
  obtain ⟨r0, hr0, hr0y⟩ := hyr
  have hr0full : r0 ∈ get_full_years_df rows := by
    unfold get_full_years_df
    rw [List.mem_filter]
    exact ⟨hr0, by rw [hr0y]; exact hfy⟩
  have hsub : rows.filter (fun r => r.Year == y) =
      (get_full_years_df rows).filter (fun r => r.Year == y) := by
    unfold get_full_years_df
    rw [List.filter_filter]
    apply List.filter_congr
    intro r hr
    by_cases h : r.Year = y
    · rw [h]
      simp [hfy]
    · have hb : (r.Year == y) = false := by simp [h]
      rw [hb]
      simp
  have h12 : 12 ≤ (get_full_years_df rows).length := by
    have h1 : (((rows.filter (fun s => s.Year == y)).map (fun s => s.Month)).dedup).length
        = 12 := by
      simpa [isFullYear] using hfy
    have h2 := (List.dedup_sublist
      ((rows.filter (fun s => s.Year == y)).map (fun s => s.Month))).length_le
    rw [h1, List.length_map] at h2
    have h3 : (rows.filter (fun s => s.Year == y)).length ≤
        (get_full_years_df rows).length := by
      rw [hsub]
      exact List.length_filter_le _ _
    omega
  have hne : get_full_years_df rows ≠ [] := by
    intro h0
    rw [h0] at h12
    simp at h12
  have hgate : ¬ (((get_full_years_df rows).isEmpty || pvsyst.isEmpty ||
      decide ((get_full_years_df rows).length < 12)) = true) := by
    simp [List.isEmpty_iff, hne, hpv]
    omega
  have hyd : dateYear r0.Date = y := by
    rw [← hconsist r0 hr0]
    exact hr0y
  have hdmem : r0.Date ∈ (get_full_years_df rows).map (fun r => r.Date) :=
    List.mem_map.mpr ⟨r0, hr0full, rfl⟩
  unfold calculate_long_term_forecast
  rw [if_neg hgate]
  set fRows := ((((get_full_years_df rows).map (fun r => r.Date)) ++
      (List.range (cfg.forecast_period * 12)).map
        (fun i => listMaxInt ((get_full_years_df rows).map (fun r => r.Date)) + 1 +
          (i : Int))).flatMap
    (fun d =>
      match pvsyst.filter (fun p => p.Month == dateMonth d) with
      | [] => [(dateYear d, fmul .nan (.fin (clipPI (predictPI d) / 100)))]
      | ps => ps.map (fun p =>
          (dateYear d, fmul p.pvsyst_yield_kwh (.fin (clipPI (predictPI d) / 100))))))
    with hfRows
  have hyk : y ∈ fRows.map (fun x => x.1) := by
    rw [hfRows, List.map_flatMap]
    rw [List.mem_flatMap]
    refine ⟨r0.Date, List.mem_append_left _ hdmem, ?_⟩
    rcases hfil : pvsyst.filter (fun p => p.Month == dateMonth r0.Date) with _ | ⟨p0, ps⟩
    · show y ∈ (match pvsyst.filter (fun (p : PvsystRow) => p.Month == dateMonth r0.Date) with
        | [] => [(dateYear r0.Date, fmul .nan (.fin (clipPI (predictPI r0.Date) / 100)))]
        | ps => ps.map (fun (p : PvsystRow) =>
            (dateYear r0.Date,
              fmul p.pvsyst_yield_kwh (.fin (clipPI (predictPI r0.Date) / 100))))).map
        (fun (x : Int × FVal) => x.1)
      rw [hfil]
      show y ∈ [dateYear r0.Date]
      rw [hyd]
      exact List.mem_singleton.mpr rfl
    · show y ∈ (match pvsyst.filter (fun (p : PvsystRow) => p.Month == dateMonth r0.Date) with
        | [] => [(dateYear r0.Date, fmul .nan (.fin (clipPI (predictPI r0.Date) / 100)))]
        | ps => ps.map (fun (p : PvsystRow) =>
            (dateYear r0.Date,
              fmul p.pvsyst_yield_kwh (.fin (clipPI (predictPI r0.Date) / 100))))).map
        (fun (x : Int × FVal) => x.1)
      rw [hfil]
      rw [List.map_map]
      exact List.mem_map.mpr ⟨p0, List.mem_cons_self _ _, hyd⟩
  have hyA : y ∈ ((get_full_years_df rows).map
      (fun r => (r.Year, r.actual_yield_kwh))).map (fun x => x.1) :=
    List.mem_map.mpr ⟨(r0.Year, r0.actual_yield_kwh),
      List.mem_map.mpr ⟨r0, hr0full, rfl⟩, hr0y⟩
  have hfind := groupSum_find?
    ((get_full_years_df rows).map (fun r => (r.Year, r.actual_yield_kwh))) y hyA
  have hfind2 := find?_map_div _ y _ hfind
  have hSval : ((((get_full_years_df rows).map
      (fun r => (r.Year, r.actual_yield_kwh))).filter
        (fun x => x.1 == y)).map (fun x => x.2)) =
      (rows.filter (fun r => r.Year == y)).map (fun r => r.actual_yield_kwh) := by
    rw [filter_pairmap, ← hsub]
  obtain ⟨s, hs⟩ : ∃ s : ℚ, fsumP ((rows.filter (fun r => r.Year == y)).map
      (fun r => r.actual_yield_kwh)) = .fin s :=
    ⟨_, fsumP_map_eq _ _ (fun r hr => hfin r (List.mem_of_mem_filter hr))⟩
  refine ⟨_, List.mem_map.mpr ⟨(y, fdiv (fsumP ((fRows.filter (fun x => x.1 == y)).map
      (fun x => x.2))) (.fin 1000)),
    List.mem_map.mpr ⟨(y, fsumP ((fRows.filter (fun x => x.1 == y)).map (fun x => x.2))),
      groupSum_mem fRows y hyk, rfl⟩, rfl⟩, rfl, ?_⟩
  show (match ((groupSum ((get_full_years_df rows).map
      (fun r => (r.Year, r.actual_yield_kwh)))).map
      (fun x => (x.1, fdiv x.2 (.fin 1000)))).find? (fun a => a.1 == y) with
    | some a => if a.2 == FVal.nan then
        fdiv (fsumP ((fRows.filter (fun x => x.1 == y)).map (fun x => x.2))) (.fin 1000)
      else a.2
    | none =>
        fdiv (fsumP ((fRows.filter (fun x => x.1 == y)).map (fun x => x.2))) (.fin 1000)) =
    fdiv (fsumP ((rows.filter (fun r => r.Year == y)).map
      (fun r => r.actual_yield_kwh))) (.fin 1000)
  rw [hfind2]
  show (if fdiv (fsumP ((((get_full_years_df rows).map
      (fun r => (r.Year, r.actual_yield_kwh))).filter
        (fun x => x.1 == y)).map (fun x => x.2))) (.fin 1000) == FVal.nan then
      fdiv (fsumP ((fRows.filter (fun x => x.1 == y)).map (fun x => x.2))) (.fin 1000)
    else fdiv (fsumP ((((get_full_years_df rows).map
      (fun r => (r.Year, r.actual_yield_kwh))).filter
        (fun x => x.1 == y)).map (fun x => x.2))) (.fin 1000)) = _
  rw [hSval, hs, fdiv_fin_fin_of_ne _ _ (by norm_num)]
  rw [show ((FVal.fin (s / 1000) == FVal.nan) = false) from rfl]
  simp

set_option maxHeartbeats 8000000 in
/-- C6 counterexample: 2021 has actual data in the input (one month,
5000 kWh = 5 MWh), but because 2021 is not a FULL year its forecast row
keeps the model's prediction (0 MWh here, from a zero baseline) instead of
the actual figure — the override only applies to years with all 12 months
observed. -/
theorem longterm_actual_override_refuted :
    ¬ (∀ fr ∈ calculate_long_term_forecast (fun _ => 100) z6rows z6pv c6cfg,
        (∃ r ∈ z6rows, r.Year = fr.Year) →
        fr.forecasted_yield_mwh =
          fdiv (fsumP ((z6rows.filter (fun r => r.Year == fr.Year)).map
            (fun r => r.actual_yield_kwh))) (.fin 1000)) := by
  intro h
  have hmem : (⟨2021, FVal.fin 0, 0, "Forecast"⟩ : ForecastRow) ∈
      calculate_long_term_forecast (fun _ => 100) z6rows z6pv c6cfg := by
    rw [show calculate_long_term_forecast (fun _ => 100) z6rows z6pv c6cfg =
      [(⟨2020, FVal.fin 0, 0, "Historical"⟩ : ForecastRow),
       (⟨2021, FVal.fin 0, 0, "Forecast"⟩ : ForecastRow)] by
      norm_num [calculate_long_term_forecast, get_full_years_df, isFullYear, z6rows, z6pv,
        c6cfg, simpleRow, groupSum, listMaxInt, dateYear, dateMonth, clipPI, fsumP, fadd,
        fmul, fdiv, List.insertionSort, List.orderedInsert, List.range_succ,
        List.filter_cons, List.foldl_cons, max_def]]
    exact List.mem_cons_of_mem _ (List.mem_singleton.mpr rfl)
  have hdata : ∃ r ∈ z6rows, r.Year = (2021:Int) := by
    refine ⟨simpleRow 2021 1 5000 100, ?_, rfl⟩
    exact List.mem_append_right _ (List.mem_singleton.mpr rfl)
  have heq := h _ hmem hdata
  have hsum : fsumP ((z6rows.filter (fun r => r.Year == (2021:Int))).map
      (fun r => r.actual_yield_kwh)) = .fin 5000 := by
    rw [show (z6rows.filter (fun r => r.Year == (2021:Int))).map
        (fun r => r.actual_yield_kwh) = [FVal.fin 5000] by
      norm_num [z6rows, simpleRow, List.range_succ, List.filter_cons]]
    rw [fsumP_eq_sum _ (by
      intro x hx
      rw [List.mem_singleton.mp hx]
      rfl)]
    norm_num [ratOf]
  rw [show fdiv (fsumP ((z6rows.filter (fun r => r.Year == (2021:Int))).map
    (fun r => r.actual_yield_kwh))) (.fin 1000) = .fin 5 by
      rw [hsum, fdiv_fin_fin_of_ne _ _ (by norm_num)]
      norm_num]
    at heq
  rw [show ((⟨2021, FVal.fin 0, 0, "Forecast"⟩ : ForecastRow)).forecasted_yield_mwh =
    .fin 0 from rfl] at heq
  simp only [FVal.fin.injEq] at heq
  norm_num at heq

/-- C6 witness: the full year 2020 of the same instance is overridden by its
actual yearly yield. -/
theorem longterm_actual_override_witness :
    ∃ fr ∈ calculate_long_term_forecast (fun _ => 100) c6rows c6pv c6cfg,
      fr.Year = 2020 ∧
      fr.forecasted_yield_mwh =
        fdiv (fsumP ((c6rows.filter (fun r => r.Year == (2020:Int))).map
          (fun r => r.actual_yield_kwh))) (.fin 1000) :=
  longterm_actual_override (fun _ => 100) c6rows c6pv c6cfg 2020
    (by decide)
    (by decide)
    ⟨simpleRow 2020 1 2000 100, by decide, rfl⟩
    (by decide)
    (by decide)

/-- Code-point comparison of character lists is total. -/
theorem charListLe_total : ∀ as bs : List Char,
    charListLe as bs = true ∨ charListLe bs as = true := by
  intro as
  induction as with
  | nil =>
      intro bs
      left
      rfl
  | cons a as ih =>
      intro bs
      cases bs with
      | nil =>
          right
          rfl
      | cons b bs =>
          by_cases h1 : a.toNat < b.toNat
          · left
            simp [charListLe, h1]
          · by_cases h2 : b.toNat < a.toNat
            · right
              simp [charListLe, h2]
            · rcases ih bs with h | h
              · left
                simp [charListLe, h1, h2, h]
              · right
                simp [charListLe, h1, h2, h]

/-- Code-point comparison of character lists is transitive. -/
theorem charListLe_trans : ∀ as bs cs : List Char,
    charListLe as bs = true → charListLe bs cs = true → charListLe as cs = true := by
  intro as
  induction as with
  | nil =>
      intro bs cs _ _
      rfl
  | cons a as ih =>
      intro bs cs hab hbc
      cases bs with
      | nil => simp [charListLe] at hab
      | cons b bs =>
          cases cs with
          | nil => simp [charListLe] at hbc
          | cons c cs =>
              simp only [charListLe] at hab hbc ⊢
              by_cases h1 : a.toNat < b.toNat
              · by_cases h2 : b.toNat < c.toNat
                · simp [Nat.lt_trans h1 h2]
                · by_cases h3 : c.toNat < b.toNat
                  · simp [h2, h3] at hbc
                  · have h4 : a.toNat < c.toNat := by omega
                    simp [h4]
              · by_cases h1' : b.toNat < a.toNat
                · simp [h1, h1'] at hab
                · simp only [h1, h1', if_false] at hab
                  by_cases h2 : b.toNat < c.toNat
                  · have h4 : a.toNat < c.toNat := by omega
                    simp [h4]
                  · by_cases h3 : c.toNat < b.toNat
                    · simp [h2, h3] at hbc
                    · simp only [h2, h3, if_false] at hbc
                      have h4 : ¬ a.toNat < c.toNat := by omega
                      have h5 : ¬ c.toNat < a.toNat := by omega
                      simp only [h4, h5, if_false]
                      exact ih bs cs hab hbc

instance : IsTotal String (fun a b => strLe a b = true) :=
  ⟨fun a b => charListLe_total a.data b.data⟩

instance : IsTrans String (fun a b => strLe a b = true) :=
  ⟨fun a b c => charListLe_trans a.data b.data c.data⟩

/-- The Python sorted-set of a string list has no duplicates. -/
theorem sortedDedup_nodup (l : List String) : (sortedDedup l).Nodup :=
  ((List.perm_insertionSort _ _).nodup_iff).mpr (List.nodup_dedup l)

/-- The Python sorted-set of a string list is sorted in code-point order. -/
theorem sortedDedup_sorted (l : List String) :
    List.Pairwise (fun a b => strLe a b = true) (sortedDedup l) :=
  List.sorted_insertionSort _ _

/-- The Python sorted-set of a string list keeps exactly the input elements. -/
theorem mem_sortedDedup {s : String} {l : List String} : s ∈ sortedDedup l ↔ s ∈ l := by
  unfold sortedDedup
  rw [(List.perm_insertionSort _ _).mem_iff, List.mem_dedup]

/-- C7 (amended): on an empty analysis table the narrative generator fails
with the line-217 KeyError and produces no block sequence.  On a nonempty
table a block sequence is produced, and in it: when NO month is flagged
anomalous the recommendations section is the default performing-optimally
body and no bullet of any kind appears — in particular no sensor-check
recommendation, even when `sensor_alert_count > 0`; when at least one month
is flagged anomalous, the blocks end with the `Actionable Recommendations`
heading followed by a deduplicated, code-point-sorted list of
recommendation bullets, and the sensor-check recommendation is among them
whenever `sensor_alert_count > 0`. -/
theorem narrative_recommendations (fit : List (FVal × FVal × FVal) → List Int)
    (stf : Option STForecast) (ins : Insights) (rows : List EnrichedRow)
    (cfg : SystemInfo) :
    (rows = [] →
      generate_conclusion_text_phase2 fit stf ins rows cfg =
        .error "KeyError: \x27Year\x27") ∧
    (rows ≠ [] →
      ∃ blocks, generate_conclusion_text_phase2 fit stf ins rows cfg = .ok blocks ∧
        ((detect_anomalies_with_ml fit rows).filter (fun x => x.2 == -1) = [] →
          ReportBlock.body optimalText ∈ blocks ∧
          ∀ t, ReportBlock.bullet t ∉ blocks) ∧
        ((detect_anomalies_with_ml fit rows).filter (fun x => x.2 == -1) ≠ [] →
          ∃ pre recs, blocks =
              pre ++ ReportBlock.h3 "Actionable Recommendations" ::
                recs.map ReportBlock.bullet ∧
            recs.Nodup ∧ List.Pairwise (fun a b => strLe a b = true) recs ∧
            (0 < ins.sensor_alerts_count → sensorRecText ∈ recs))) := by
  constructor
  · intro hrows
    simp only [generate_conclusion_text_phase2]
    rw [if_pos hrows]
  · intro hrows
    simp only [generate_conclusion_text_phase2]
    rw [if_neg hrows]
    refine ⟨_, rfl, ?_, ?_⟩
    · intro hanom
      rw [hanom]
      constructor
      · simp
      · intro t ht
        rcases hst : (if rows.isEmpty || rows.length < 6 then none else stf) with _ | fc <;>
          rw [hst] at ht <;>
          by_cases htr :
            1 < (((get_full_years_df rows).map (fun r => r.Year)).dedup).length <;>
          simp [htr] at ht
    · intro hanom
      have hrecE : (((detect_anomalies_with_ml fit rows).filter (fun x => x.2 == -1)).map
          (fun x => "Investigate Anomaly in " ++ formatMonthYear x.1.Date ++
            ": Review O&M logs and system components.")).isEmpty = false := by
        rcases h : ((detect_anomalies_with_ml fit rows).filter (fun x => x.2 == -1)).map
            (fun x => "Investigate Anomaly in " ++ formatMonthYear x.1.Date ++
              ": Review O&M logs and system components.") with _ | ⟨x, xs⟩
        · exact absurd (List.map_eq_nil_iff.mp h) hanom
        · rw [h]
          rfl
      rw [hrecE]
      simp only [Bool.false_eq_true, if_false]
      exact ⟨_, _, rfl, sortedDedup_nodup _, sortedDedup_sorted _,
        fun hcount => by
          rw [if_pos hcount]
          exact mem_sortedDedup.mpr (List.mem_cons_self _ _)⟩

/-- C7 counterexample: with 2 sensor alerts pending but no anomalous months
(here: only 2 records, so the detector is never fitted and nothing is
flagged), the narrative produced contains NO sensor-check recommendation
bullet — refuting the claim that it is always included when
`sensor_alert_count > 0`. -/
theorem narrative_sensor_rec_refuted :
    ¬ (0 < insAlert.sensor_alerts_count →
        ∃ blocks,
          generate_conclusion_text_phase2 (fun _ => []) none insAlert rowsTwo sampleCfg =
            .ok blocks ∧
          ReportBlock.bullet sensorRecText ∈ blocks) := by
  intro h
  obtain ⟨blocks, hok, hmem⟩ := h (by decide)
  have hanom : (detect_anomalies_with_ml (fun _ => []) rowsTwo).filter
      (fun x => x.2 == -1) = [] := by decide
  simp only [generate_conclusion_text_phase2] at hok
  rw [if_neg (by decide : ¬ (rowsTwo = []))] at hok
  injection hok with hok
  rw [← hok] at hmem
  rw [hanom] at hmem
  simp [rowsTwo, simpleRow, get_full_years_df, isFullYear, List.filter_cons] at hmem

/-- C7 witness: with three records all flagged anomalous and pending sensor
alerts, a narrative is produced whose recommendations section is a
deduplicated sorted bullet list containing the sensor-check
recommendation; and the empty table yields the modelled KeyError. -/
theorem narrative_recommendations_witness :
    generate_conclusion_text_phase2 (constFit (-1)) none insAlert [] sampleCfg =
      .error "KeyError: \x27Year\x27" ∧
    ∃ blocks pre recs,
      generate_conclusion_text_phase2 (constFit (-1)) none insAlert rowsThree sampleCfg =
        .ok blocks ∧
      blocks = pre ++ ReportBlock.h3 "Actionable Recommendations" ::
        recs.map ReportBlock.bullet ∧
      recs.Nodup ∧ List.Pairwise (fun a b => strLe a b = true) recs ∧
      sensorRecText ∈ recs := by
  constructor
  · exact (narrative_recommendations (constFit (-1)) none insAlert [] sampleCfg).1 rfl
  · obtain ⟨blocks, h0, _, h2⟩ :=
      (narrative_recommendations (constFit (-1)) none insAlert rowsThree sampleCfg).2
        (by decide)
    obtain ⟨pre, recs, ha, hb, hc, hd⟩ := h2 (by decide)
    exact ⟨blocks, pre, recs, h0, ha, hb, hc, hd (by decide)⟩
